import Mathlib

/-!
Verification of the asynchronous hardware-command pipeline of the drivers
repository (e1000d and nvmed request dispatchers, the xhcid TRB record
codec, and the pcid bus iterator), as a shallow embedding in Lean.

Device handlers (Intel8254x.handle, DiskScheme.handle and the irq claim
checks) live outside the dispatcher loops; they are modelled as abstract
state-threading functions, which the dispatcher theorems quantify over.
Transport writes are modelled by a predicate saying whether writing a
given packet succeeds; a failed write makes the driver process panic,
mirroring the expect calls and the error propagation in the sources.
-/

/-- Model of syscall Packet as used by the dispatchers: the field a is the
operation/result word that the drivers read and overwrite; the remaining
fields (id, b, c, d, pid, uid, gid) are never inspected by the dispatch
loops and are abstracted into id and rest. -/
structure Packet where
  a : Nat
  id : Nat
  rest : Nat
deriving DecidableEq, Repr

/-- Default packet, Packet::default(): all fields zero. -/
def Packet.default : Packet := ⟨0, 0, 0⟩

/-- Error number EWOULDBLOCK (= EAGAIN = 11) from the syscall crate. -/
def EWOULDBLOCK : Nat := 11

/-- Sentinel value (-EWOULDBLOCK) as usize on a 64-bit machine, the value
compared against packet.a in e1000d after a handler call. -/
def sentinel : Nat := 2 ^ 64 - EWOULDBLOCK

/-- Exit disposition of one dispatcher step. -/
inductive LoopExit where
  /-- Dispatcher cycle finished; the loop waits for the next event. -/
  | running
  /-- Dispatcher loop terminated gracefully (break of the events loop). -/
  | closed
  /-- Driver process terminated by a panic (expect on an Err, or an error
  propagated out of an event closure into EventQueue::run). -/
  | panicked
deriving DecidableEq, Repr

/-- Result of one dispatcher step: final device state, the pending (todo)
list afterwards, responses written back to the client socket in order,
the packets passed to the device handler in invocation order, and how the
step exited. -/
structure DispatchResult (σ : Type) where
  state : σ
  todo : List Packet
  written : List Packet
  trace : List Packet
  exit : LoopExit
deriving DecidableEq, Repr

/-- Embedding of the e1000d irq-closure retry loop (e1000d/src/main.rs,
lines 56-68): while i < todo.len, save a = todo[i].a, run the device
handler on todo[i] in place, then if todo[i].a is the would-block
sentinel restore todo[i].a = a and advance i, else write todo[i] to the
socket and remove it from the list. A failed socket write propagates via
the question-mark operator and panics the process in the main loop. The
while loop with in-place removal is rendered as structural recursion on
the list: keeping the element corresponds to advancing i, removing it
corresponds to retrying index i on the shortened list. -/
def e1000dIrqRetry (h : σ → Packet → σ × Packet) (writeOk : Packet → Bool) :
    σ → List Packet → DispatchResult σ
  | s, [] => ⟨s, [], [], [], .running⟩
  | s, p :: rest =>
    let a := p.a
    let hp := h s p
    if hp.2.a = sentinel then
      let r := e1000dIrqRetry h writeOk hp.1 rest
      ⟨r.state, { hp.2 with a := a } :: r.todo, r.written, p :: r.trace, r.exit⟩
    else if writeOk hp.2 then
      let r := e1000dIrqRetry h writeOk hp.1 rest
      ⟨r.state, r.todo, hp.2 :: r.written, p :: r.trace, r.exit⟩
    else
      ⟨hp.1, hp.2 :: rest, [], [p], .panicked⟩

/-- Result of one read from the client socket, as seen by the dispatchers:
a packet was read (Ok with a positive byte count), end of stream (Ok 0),
the non-blocking no-data condition (Err WouldBlock), or any other I/O
error (Err of another kind). -/
inductive ReadRes where
  | ok (p : Packet)
  | eof
  | wouldBlock
  | fatal
deriving DecidableEq, Repr

/-- Body shared by the read cases of the e1000d socket closure: handle the
packet that the read left in the buffer. -/
def e1000dSocketBody (h : σ → Packet → σ × Packet) (writeOk : Packet → Bool)
    (s : σ) (todo : List Packet) (p : Packet) : DispatchResult σ :=
  let a := p.a
  let hp := h s p
  if hp.2.a = sentinel then
    ⟨hp.1, todo ++ [{ hp.2 with a := a }], [], [p], .running⟩
  else if writeOk hp.2 then
    ⟨hp.1, todo, [hp.2], [p], .running⟩
  else
    ⟨hp.1, todo, [], [p], .panicked⟩

/-- Embedding of the e1000d socket-event closure (e1000d/src/main.rs,
lines 74-88): read one packet (the byte count is ignored, so a zero-byte
read leaves the default packet in place), save a = packet.a, run the
handler; if packet.a is now the sentinel restore packet.a = a and push
the packet at the tail of todo, else write the packet back. A read error
of any kind, would-block included, propagates out of the closure and
panics the process in the main loop. -/
def e1000dSocketEvent (h : σ → Packet → σ × Packet) (writeOk : Packet → Bool)
    (s : σ) (todo : List Packet) (r : ReadRes) : DispatchResult σ :=
  match r with
  | .wouldBlock => ⟨s, todo, [], [], .panicked⟩
  | .fatal => ⟨s, todo, [], [], .panicked⟩
  | .eof => e1000dSocketBody h writeOk s todo Packet.default
  | .ok p => e1000dSocketBody h writeOk s todo p

/-- Embedding of the nvmed retry loop (nvmed/src/main.rs, lines 109-118),
run at the end of every event cycle: while i < todo.len, if
scheme.handle(todo[i]) returns Some a then remove the packet, set its a
field to a and write it to the socket (a write error panics via expect),
else advance i. -/
def nvmedRetry (h : σ → Packet → σ × Option Nat) (writeOk : Packet → Bool) :
    σ → List Packet → DispatchResult σ
  | s, [] => ⟨s, [], [], [], .running⟩
  | s, p :: rest =>
    match h s p with
    | (s1, some a) =>
      let p2 := { p with a := a }
      if writeOk p2 then
        let r := nvmedRetry h writeOk s1 rest
        ⟨r.state, r.todo, p2 :: r.written, p :: r.trace, r.exit⟩
      else
        ⟨s1, rest, [], [p], .panicked⟩
    | (s1, none) =>
      let r := nvmedRetry h writeOk s1 rest
      ⟨r.state, p :: r.todo, r.written, p :: r.trace, r.exit⟩

/-- Embedding of the nvmed socket read loop (nvmed/src/main.rs, lines
92-103): repeatedly read a packet; Ok 0 breaks the outer events loop,
Ok n pushes the packet on todo and keeps reading, Err WouldBlock breaks
the inner loop only, any other error panics via expect. An exhausted
input list stands for a socket with no further data, like WouldBlock. -/
def nvmedReadLoop : List ReadRes → List Packet → List Packet × LoopExit
  | [], todo => (todo, .running)
  | .ok p :: rest, todo => nvmedReadLoop rest (todo ++ [p])
  | .eof :: _, todo => (todo, .closed)
  | .wouldBlock :: _, todo => (todo, .running)
  | .fatal :: _, todo => (todo, .panicked)

/-- Embedding of one data == 1 cycle of the nvmed events loop: run the
socket read loop, and unless it broke the outer loop or panicked, run the
retry loop over the extended todo list. -/
def nvmedSocketCycle (h : σ → Packet → σ × Option Nat) (writeOk : Packet → Bool)
    (s : σ) (todo : List Packet) (reads : List ReadRes) : DispatchResult σ :=
  match nvmedReadLoop reads todo with
  | (todo1, .running) => nvmedRetry h writeOk s todo1
  | (todo1, e) => ⟨s, todo1, [], [], e⟩

/-- Spec-side description for the retry loops: attempt every pending
request once, in arrival order, threading the device state, and record
for each request the packet produced by its handler call. Used to state
that the e1000d retry loop is the ordered partition of these results. -/
def attemptsE (h : σ → Packet → σ × Packet) : σ → List Packet → σ × List (Packet × Packet)
  | s, [] => (s, [])
  | s, p :: rest =>
    let hp := h s p
    let r := attemptsE h hp.1 rest
    (r.1, (p, hp.2) :: r.2)

/-- Spec-side description for the nvmed retry loop: attempt every pending
request once, in arrival order, threading the device state, and record
each handler verdict (some result, or none for would-block). -/
def attemptsN (h : σ → Packet → σ × Option Nat) : σ → List Packet → σ × List (Packet × Option Nat)
  | s, [] => (s, [])
  | s, p :: rest =>
    let hp := h s p
    let r := attemptsN h hp.1 rest
    (r.1, (p, hp.2) :: r.2)

/-- Abstract actions performed by an interrupt-event cycle, in program
order. The claim check stands for device.irq() in e1000d and scheme.irq()
in nvmed; whatever event-ring draining those device methods perform is
part of the claim-check action. -/
inductive IrqAction where
  | readIrqFile
  | claimCheck (asserted : Bool)
  | ackWrite
  | retryAttempt (p : Packet)
deriving DecidableEq, Repr

/-- Order of operations of the e1000d irq closure (e1000d/src/main.rs,
lines 50-71): read the irq file, ask the device (device.irq()); only when
the device claims the interrupt, write the acknowledgment back and then
run the retry loop over the todo list. -/
def e1000dIrqTrace (asserted : Bool) (todo : List Packet) : List IrqAction :=
  .readIrqFile :: .claimCheck asserted ::
    (if asserted then .ackWrite :: todo.map .retryAttempt else [])

/-- Order of operations of one data == 0 cycle of the nvmed events loop
(nvmed/src/main.rs, lines 84-91 followed by 109-118): read the irq file;
if the read returned at least 8 bytes, ask the device (scheme.irq()) and,
only when it claims the interrupt, write the acknowledgment; afterwards
the retry loop runs unconditionally, because it sits after the match on
event.data rather than inside the irq branch. -/
def nvmedIrqTrace (readLen : Nat) (asserted : Bool) (todo : List Packet) : List IrqAction :=
  .readIrqFile ::
    ((if 8 ≤ readLen then
        .claimCheck asserted :: (if asserted then [.ackWrite] else [])
      else []) ++ todo.map .retryAttempt)

/-- Record kinds of xhcid TRBs (xhcid/src/xhci/trb.rs, enum TrbType,
repr u8 with implicit discriminants in declaration order). -/
inductive TrbType where
  | Reserved
  | Normal
  | SetupStage
  | DataStage
  | StatusStage
  | Isoch
  | Link
  | EventData
  | NoOp
  | EnableSlot
  | DisableSlot
  | AddressDevice
  | ConfigureEndpoint
  | EvaluateContext
  | ResetEndpoint
  | StopEndpoint
  | SetTrDequeuePointer
  | ResetDevice
  | ForceEvent
  | NegotiateBandwidth
  | SetLatencyToleranceValue
  | GetPortBandwidth
  | ForceHeader
  | NoOpCmd
  | Rsv24
  | Rsv25
  | Rsv26
  | Rsv27
  | Rsv28
  | Rsv29
  | Rsv30
  | Rsv31
  | Transfer
  | CommandCompletion
  | PortStatusChange
  | BandwidthRequest
  | Doorbell
  | HostController
  | DeviceNotification
  | MfindexWrap
deriving DecidableEq, Repr

/-- Discriminant of a TrbType value (position in the repr u8 enum). -/
def TrbType.val : TrbType → Nat
  | .Reserved => 0
  | .Normal => 1
  | .SetupStage => 2
  | .DataStage => 3
  | .StatusStage => 4
  | .Isoch => 5
  | .Link => 6
  | .EventData => 7
  | .NoOp => 8
  | .EnableSlot => 9
  | .DisableSlot => 10
  | .AddressDevice => 11
  | .ConfigureEndpoint => 12
  | .EvaluateContext => 13
  | .ResetEndpoint => 14
  | .StopEndpoint => 15
  | .SetTrDequeuePointer => 16
  | .ResetDevice => 17
  | .ForceEvent => 18
  | .NegotiateBandwidth => 19
  | .SetLatencyToleranceValue => 20
  | .GetPortBandwidth => 21
  | .ForceHeader => 22
  | .NoOpCmd => 23
  | .Rsv24 => 24
  | .Rsv25 => 25
  | .Rsv26 => 26
  | .Rsv27 => 27
  | .Rsv28 => 28
  | .Rsv29 => 29
  | .Rsv30 => 30
  | .Rsv31 => 31
  | .Transfer => 32
  | .CommandCompletion => 33
  | .PortStatusChange => 34
  | .BandwidthRequest => 35
  | .Doorbell => 36
  | .HostController => 37
  | .DeviceNotification => 38
  | .MfindexWrap => 39

/-- Completion codes of xhcid TRBs (xhcid/src/xhci/trb.rs, enum
TrbCompletionCode, repr u8 with implicit discriminants in order); only
the first few are named here up to SplitTransaction, exactly as in the
source. -/
inductive TrbCompletionCode where
  | Invalid
  | Success
  | DataBuffer
  | BabbleDetected
  | UsbTransaction
  | Trb
  | Stall
  | Resource
  | Bandwidth
  | NoSlotsAvailable
  | InvalidStreamType
  | SlotNotEnabled
  | EndpointNotEnabled
  | ShortPacket
  | RingUnderrun
  | RingOverrun
  | VfEventRingFull
  | Parameter
  | BandwidthOverrun
  | ContextState
  | NoPingResponse
  | EventRingFull
  | IncompatibleDevice
  | MissedService
  | CommandRingStopped
  | CommandAborted
  | Stopped
  | StoppedLengthInvalid
  | StoppedShortPacket
  | MaxExitLatencyTooLarge
  | Rsv30
  | IsochBuffer
  | EventLost
  | Undefined
  | InvalidStreamId
  | SecondaryBandwidth
  | SplitTransaction
deriving DecidableEq, Repr

/-- Discriminant of a TrbCompletionCode value. -/
def TrbCompletionCode.val : TrbCompletionCode → Nat
  | .Invalid => 0
  | .Success => 1
  | .DataBuffer => 2
  | .BabbleDetected => 3
  | .UsbTransaction => 4
  | .Trb => 5
  | .Stall => 6
  | .Resource => 7
  | .Bandwidth => 8
  | .NoSlotsAvailable => 9
  | .InvalidStreamType => 10
  | .SlotNotEnabled => 11
  | .EndpointNotEnabled => 12
  | .ShortPacket => 13
  | .RingUnderrun => 14
  | .RingOverrun => 15
  | .VfEventRingFull => 16
  | .Parameter => 17
  | .BandwidthOverrun => 18
  | .ContextState => 19
  | .NoPingResponse => 20
  | .EventRingFull => 21
  | .IncompatibleDevice => 22
  | .MissedService => 23
  | .CommandRingStopped => 24
  | .CommandAborted => 25
  | .Stopped => 26
  | .StoppedLengthInvalid => 27
  | .StoppedShortPacket => 28
  | .MaxExitLatencyTooLarge => 29
  | .Rsv30 => 30
  | .IsochBuffer => 31
  | .EventLost => 32
  | .Undefined => 33
  | .InvalidStreamId => 34
  | .SecondaryBandwidth => 35
  | .SplitTransaction => 36

/-- Transfer kinds for setup-stage TRBs (xhcid/src/xhci/trb.rs, enum
TransferKind, repr u8). -/
inductive TransferKind where
  | NoData
  | Reserved
  | Out
  | In
deriving DecidableEq, Repr

/-- Discriminant of a TransferKind value. -/
def TransferKind.val : TransferKind → Nat
  | .NoData => 0
  | .Reserved => 1
  | .Out => 2
  | .In => 3

/-- Descriptor record (xhcid/src/xhci/trb.rs, struct Trb): an 8-byte data
word, a 4-byte status word and a 4-byte control word. The u64 and u32
machine words are modelled as Nat; every value the constructors below
build fits the machine width, so no wraparound is elided. -/
structure Trb where
  data : Nat
  status : Nat
  control : Nat
deriving DecidableEq, Repr

def TRB_STATUS_COMPLETION_CODE_SHIFT : Nat := 24
def TRB_STATUS_COMPLETION_CODE_MASK : Nat := 0xFF000000

def TRB_STATUS_COMPLETION_PARAM_MASK : Nat := 0x00FFFFFF

def TRB_STATUS_TRANSFER_LENGTH_MASK : Nat := 0x00FFFFFF

def TRB_CONTROL_TRB_TYPE_SHIFT : Nat := 10
def TRB_CONTROL_TRB_TYPE_MASK : Nat := 0x0000FC00

def TRB_CONTROL_EVENT_DATA_BIT : Nat := 1 <<< 2

def TRB_CONTROL_ENDPOINT_ID_MASK : Nat := 0x001F0000
def TRB_CONTROL_ENDPOINT_ID_SHIFT : Nat := 16

/-- Functional rendering of Trb::set, which overwrites all three words. -/
def Trb.set (data status control : Nat) : Trb :=
  ⟨data, status, control⟩

/-- Completion code of an event TRB: status shifted right by 24, cast to
u8 (the cast is the mod 256). -/
def Trb.completion_code (t : Trb) : Nat :=
  (t.status >>> TRB_STATUS_COMPLETION_CODE_SHIFT) % 256

/-- Completion parameter of an event TRB: low 24 bits of status. -/
def Trb.completion_param (t : Trb) : Nat :=
  t.status &&& TRB_STATUS_COMPLETION_PARAM_MASK

/-- Slot id carried by an event TRB: control shifted right by 24, cast to
u8. -/
def Trb.event_slot (t : Trb) : Nat :=
  (t.control >>> 24) % 256

/-- Residual transfer length of a transfer event TRB: low 24 bits of
status. -/
def Trb.transfer_length (t : Trb) : Nat :=
  t.status &&& TRB_STATUS_TRANSFER_LENGTH_MASK

/-- Event-data flag of a TRB (bit 2 of control). -/
def Trb.event_data_bit (t : Trb) : Bool :=
  t.control &&& TRB_CONTROL_EVENT_DATA_BIT = TRB_CONTROL_EVENT_DATA_BIT

/-- Event-data pointer echoed back in an event TRB, when flagged. -/
def Trb.event_data (t : Trb) : Option Nat :=
  if t.event_data_bit then some t.data else none

/-- Endpoint id carried by an event TRB (bits 20..16 of control). -/
def Trb.endpoint_id (t : Trb) : Nat :=
  ((t.control &&& TRB_CONTROL_ENDPOINT_ID_MASK) >>> TRB_CONTROL_ENDPOINT_ID_SHIFT) % 256

/-- Record type tag of a TRB (bits 15..10 of control), cast to u8. -/
def Trb.trb_type (t : Trb) : Nat :=
  ((t.control &&& TRB_CONTROL_TRB_TYPE_MASK) >>> TRB_CONTROL_TRB_TYPE_SHIFT) % 256

/-- Constructor Trb::reserved. -/
def Trb.reserved (cycle : Bool) : Trb :=
  Trb.set 0 0 ((TrbType.Reserved.val <<< 10) ||| cycle.toNat)

/-- Constructor Trb::link. -/
def Trb.link (address : Nat) (toggle cycle : Bool) : Trb :=
  Trb.set address 0
    ((TrbType.Link.val <<< 10) ||| (toggle.toNat <<< 1) ||| cycle.toNat)

/-- Constructor Trb::no_op_cmd. -/
def Trb.no_op_cmd (cycle : Bool) : Trb :=
  Trb.set 0 0 ((TrbType.NoOpCmd.val <<< 10) ||| cycle.toNat)

/-- Constructor Trb::enable_slot: the slot type is masked to 5 bits and
placed at bits 20..16. -/
def Trb.enable_slot (slot_type : Nat) (cycle : Bool) : Trb :=
  Trb.set 0 0
    (((slot_type &&& 0x1F) <<< 16) ||| (TrbType.EnableSlot.val <<< 10) ||| cycle.toNat)

/-- Constructor Trb::address_device; the source asserts 16-byte alignment
of the input context pointer, modelled as returning none when the assert
would fire. -/
def Trb.address_device (slot_id input_ctx_ptr : Nat) (bsr cycle : Bool) : Option Trb :=
  if input_ctx_ptr &&& 0xFFFFFFFFFFFFFFF0 = input_ctx_ptr then
    some (Trb.set input_ctx_ptr 0
      ((slot_id <<< 24) ||| (TrbType.AddressDevice.val <<< 10) |||
        (bsr.toNat <<< 9) ||| cycle.toNat))
  else none

/-- Constructor Trb::configure_endpoint, with the same alignment assert. -/
def Trb.configure_endpoint (slot_id input_ctx_ptr : Nat) (cycle : Bool) : Option Trb :=
  if input_ctx_ptr &&& 0xFFFFFFFFFFFFFFF0 = input_ctx_ptr then
    some (Trb.set input_ctx_ptr 0
      ((slot_id <<< 24) ||| (TrbType.ConfigureEndpoint.val <<< 10) ||| cycle.toNat))
  else none

/-- Constructor Trb::evaluate_context, with the same alignment assert. -/
def Trb.evaluate_context (slot_id input_ctx_ptr : Nat) (bsr cycle : Bool) : Option Trb :=
  if input_ctx_ptr &&& 0xFFFFFFFFFFFFFFF0 = input_ctx_ptr then
    some (Trb.set input_ctx_ptr 0
      ((slot_id <<< 24) ||| (TrbType.EvaluateContext.val <<< 10) |||
        (bsr.toNat <<< 9) ||| cycle.toNat))
  else none

/-- Constructor Trb::reset_endpoint; the source asserts that the endpoint
number fits 5 bits. -/
def Trb.reset_endpoint (slot_id endp_num_xhc : Nat) (tsp cycle : Bool) : Option Trb :=
  if endp_num_xhc &&& 0x1F = endp_num_xhc then
    some (Trb.set 0 0
      ((slot_id <<< 24) ||| (endp_num_xhc <<< 16) |||
        (TrbType.ResetEndpoint.val <<< 10) ||| (tsp.toNat <<< 9) ||| cycle.toNat))
  else none

/-- Constructor Trb::set_tr_deque_ptr; the source asserts that the deque
pointer uses only bits 63..4 and bit 0, and that the endpoint number fits
5 bits. The stream context type argument is modelled by its repr u8
discriminant sct. -/
def Trb.set_tr_deque_ptr (deque_ptr : Nat) (cycle : Bool) (sct stream_id endp_num_xhc slot : Nat) :
    Option Trb :=
  if deque_ptr &&& 0xFFFFFFFFFFFFFFF1 = deque_ptr then
    if endp_num_xhc &&& 0x1F = endp_num_xhc then
      some (Trb.set (deque_ptr ||| (sct <<< 1)) (stream_id <<< 16)
        ((slot <<< 24) ||| (endp_num_xhc <<< 16) |||
          (TrbType.SetTrDequeuePointer.val <<< 10) ||| cycle.toNat))
    else none
  else none

/-- Constructor Trb::stop_endpoint; the source asserts that the endpoint
number fits 5 bits. -/
def Trb.stop_endpoint (slot_id endp_num_xhc : Nat) (suspend cycle : Bool) : Option Trb :=
  if endp_num_xhc &&& 0x1F = endp_num_xhc then
    some (Trb.set 0 0
      ((slot_id <<< 24) ||| (suspend.toNat <<< 23) ||| (endp_num_xhc <<< 16) |||
        (TrbType.StopEndpoint.val <<< 10) ||| cycle.toNat))
  else none

/-- Constructor Trb::reset_device. -/
def Trb.reset_device (slot_id : Nat) (cycle : Bool) : Trb :=
  Trb.set 0 0
    ((slot_id <<< 24) ||| (TrbType.ResetDevice.val <<< 10) ||| cycle.toNat)

/-- Constructor Trb::transfer_no_op. -/
def Trb.transfer_no_op (interrupter : Nat) (ent ch ioc cycle : Bool) : Trb :=
  Trb.set 0 (interrupter <<< 22)
    ((TrbType.NoOp.val <<< 10) ||| (ioc.toNat <<< 5) ||| (ch.toNat <<< 4) |||
      (ent.toNat <<< 1) ||| cycle.toNat)

/-- Constructor Trb::setup; the usb Setup packet is transmuted into the
data word, modelled as an abstract 64-bit value. -/
def Trb.setup (setup : Nat) (transfer : TransferKind) (cycle : Bool) : Trb :=
  Trb.set setup 8
    ((transfer.val <<< 16) ||| (TrbType.SetupStage.val <<< 10) |||
      (1 <<< 6) ||| cycle.toNat)

/-- Constructor Trb::data (named data_stage here because data is already
the record field). -/
def Trb.data_stage (buffer length : Nat) (input cycle : Bool) : Trb :=
  Trb.set buffer length
    ((input.toNat <<< 16) ||| (TrbType.DataStage.val <<< 10) ||| cycle.toNat)

/-- Constructor Trb::status (named status_stage here because status is
already the record field). -/
def Trb.status_stage (input cycle : Bool) : Trb :=
  Trb.set 0 0
    ((input.toNat <<< 16) ||| (TrbType.StatusStage.val <<< 10) |||
      (1 <<< 5) ||| cycle.toNat)

/-- Constructor Trb::normal; the source asserts that the estimated TD size
fits 5 bits. -/
def Trb.normal (buffer len : Nat) (cycle : Bool) (estimated_td_size interrupter : Nat)
    (ent isp chain ioc idt bei : Bool) : Option Trb :=
  if estimated_td_size &&& 0x1F = estimated_td_size then
    some (Trb.set buffer
      (len ||| (estimated_td_size <<< 17) ||| (interrupter <<< 22))
      (cycle.toNat ||| (ent.toNat <<< 1) ||| (isp.toNat <<< 2) |||
        (chain.toNat <<< 4) ||| (ioc.toNat <<< 5) ||| (idt.toNat <<< 6) |||
        (bei.toNat <<< 9) ||| (TrbType.Normal.val <<< 10)))
  else none

/-- State step of the pcid bus-device iterator (pcid/src/pci/bus.rs,
Iterator for PciBusIter): the state is the num field (u32); while num is
below 32 the iterator yields a device whose number is num cast to u8 and
increments num, afterwards it yields none and leaves num unchanged. -/
def pciBusIterNext (num : Nat) : Option Nat × Nat :=
  if num < 32 then (some (num % 256), num + 1) else (none, num)

/-- Device numbers yielded by fuel successive calls of the iterator. -/
def pciBusIterRun : Nat → Nat → List Nat
  | 0, _ => []
  | fuel + 1, num =>
    match pciBusIterNext num with
    | (some d, num1) => d :: pciBusIterRun fuel num1
    | (none, _) => []

/-! Bit-level helper lemmas about Nat or, shift and mod, used to read
fields out of packed control words. -/

lemma or_shiftRight (a b n : Nat) : (a ||| b) >>> n = (a >>> n) ||| (b >>> n) := by
  apply Nat.eq_of_testBit_eq
  intro i
  simp [Nat.testBit_shiftRight, Nat.testBit_or]

lemma or_mod64 (a b : Nat) : (a ||| b) % 64 = (a % 64) ||| (b % 64) := by
  have h : (64 : Nat) = 2 ^ 6 := by norm_num
  rw [h]
  apply Nat.eq_of_testBit_eq
  intro i
  simp only [Nat.testBit_mod_two_pow, Nat.testBit_or, Bool.and_or_distrib_left]

lemma or_mod2 (a b : Nat) : (a ||| b) % 2 = (a % 2) ||| (b % 2) := by
  have h : (2 : Nat) = 2 ^ 1 := by norm_num
  rw [h]
  apply Nat.eq_of_testBit_eq
  intro i
  simp only [Nat.testBit_mod_two_pow, Nat.testBit_or, Bool.and_or_distrib_left]

lemma mask_extract (x : Nat) : ((x &&& 0xFC00) >>> 10) % 256 = (x >>> 10) % 64 := by
  have h1 : (0xFC00 : Nat) = (2 ^ 6 - 1) <<< 10 := by decide
  have h2 : (256 : Nat) = 2 ^ 8 := by norm_num
  have h3 : (64 : Nat) = 2 ^ 6 := by norm_num
  rw [h1, h2, h3]
  apply Nat.eq_of_testBit_eq
  intro i
  simp only [Nat.testBit_mod_two_pow, Nat.testBit_shiftRight, Nat.testBit_and,
    Nat.testBit_shiftLeft, Nat.testBit_two_pow_sub_one, ge_iff_le, Nat.le_add_right,
    decide_True, Bool.true_and, Nat.add_sub_cancel_left]
  by_cases h6 : i < 6
  · have h8 : i < 8 := by omega
    simp [h6, h8, Bool.and_comm]
  · by_cases h8 : i < 8 <;> simp [h6, h8]

lemma field_high (x k : Nat) (hk : 16 ≤ k) : ((x <<< k) >>> 10) % 64 = 0 := by
  have h3 : (64 : Nat) = 2 ^ 6 := by norm_num
  rw [h3]
  apply Nat.eq_of_testBit_eq
  intro i
  simp only [Nat.testBit_mod_two_pow, Nat.testBit_shiftRight, Nat.testBit_shiftLeft,
    Nat.zero_testBit, ge_iff_le]
  by_cases h6 : i < 6
  · have hc : ¬ (k ≤ 10 + i) := by omega
    simp [h6, hc]
  · simp [h6]

lemma field_tag (t : Nat) (ht : t < 64) : ((t <<< 10) >>> 10) % 64 = t := by
  rw [Nat.shiftLeft_eq, Nat.shiftRight_eq_div_pow,
    Nat.mul_div_cancel _ (by positivity)]
  exact Nat.mod_eq_of_lt ht

lemma field_low (x : Nat) (hx : x < 1024) : (x >>> 10) % 64 = 0 := by
  have h1024 : (2 : Nat) ^ 10 = 1024 := by norm_num
  rw [Nat.shiftRight_eq_div_pow, h1024, Nat.div_eq_of_lt hx]

lemma field_bool (b : Bool) : (b.toNat >>> 10) % 64 = 0 :=
  field_low _ (by cases b <;> decide)

lemma field_bool_shift (b : Bool) (k : Nat) (hk : k < 10) :
    ((b.toNat <<< k) >>> 10) % 64 = 0 := by
  apply field_low
  have hb : b.toNat ≤ 1 := by cases b <;> decide
  have h1 : b.toNat <<< k ≤ 2 ^ k := by
    rw [Nat.shiftLeft_eq]
    calc b.toNat * 2 ^ k ≤ 1 * 2 ^ k := Nat.mul_le_mul_right _ hb
    _ = 2 ^ k := Nat.one_mul _
  have h2 : (2 : Nat) ^ k ≤ 2 ^ 9 := Nat.pow_le_pow_right (by norm_num) (by omega)
  have h3 : (2 : Nat) ^ 9 = 512 := by norm_num
  omega

lemma shift_mod2 (x k : Nat) (hk : 1 ≤ k) : (x <<< k) % 2 = 0 := by
  obtain ⟨m, rfl⟩ := Nat.exists_eq_add_of_le hk
  rw [Nat.shiftLeft_eq, Nat.pow_add, Nat.pow_one,
    show x * (2 * 2 ^ m) = x * 2 ^ m * 2 by ring]
  exact Nat.mul_mod_left _ _

lemma bool_mod2 (b : Bool) : b.toNat % 2 = b.toNat := by cases b <;> decide

/-! Characterizations of the dispatcher loops, shared by several claim
theorems below. -/

lemma e1000dIrqRetry_char (h : σ → Packet → σ × Packet) (w : Packet → Bool)
    (hw : ∀ p, w p = true) (s : σ) (todo : List Packet) :
    (e1000dIrqRetry h w s todo).state = (attemptsE h s todo).1 ∧
    (e1000dIrqRetry h w s todo).exit = .running ∧
    (e1000dIrqRetry h w s todo).trace = todo ∧
    (e1000dIrqRetry h w s todo).todo =
      ((attemptsE h s todo).2.filter (fun q => q.2.a == sentinel)).map
        (fun q => { q.2 with a := q.1.a }) ∧
    (e1000dIrqRetry h w s todo).written =
      ((attemptsE h s todo).2.filter (fun q => !(q.2.a == sentinel))).map (fun q => q.2) := by
  induction todo generalizing s with
  | nil => simp [e1000dIrqRetry, attemptsE]
  | cons p rest ih =>
    simp only [e1000dIrqRetry, attemptsE]
    by_cases hb : (h s p).2.a = sentinel
    · simp [hb, ih]
    · simp [hb, hw, ih]

lemma nvmedRetry_char (h : σ → Packet → σ × Option Nat) (w : Packet → Bool)
    (hw : ∀ p, w p = true) (s : σ) (todo : List Packet) :
    (nvmedRetry h w s todo).state = (attemptsN h s todo).1 ∧
    (nvmedRetry h w s todo).exit = .running ∧
    (nvmedRetry h w s todo).trace = todo ∧
    (nvmedRetry h w s todo).todo =
      ((attemptsN h s todo).2.filter (fun q => q.2.isNone)).map (fun q => q.1) ∧
    (nvmedRetry h w s todo).written =
      (attemptsN h s todo).2.filterMap (fun q => q.2.map (fun a => { q.1 with a := a })) := by
  induction todo generalizing s with
  | nil => simp [nvmedRetry, attemptsN]
  | cons p rest ih =>
    rcases hres : h s p with ⟨s1, r⟩
    simp only [nvmedRetry, attemptsN, hres]
    cases r with
    | some a => simp [hw, ih]
    | none => simp [ih]

lemma nvmedReadLoop_append_oks (ps : List Packet) (l : List ReadRes) (todo : List Packet) :
    nvmedReadLoop (ps.map .ok ++ l) todo = nvmedReadLoop l (todo ++ ps) := by
  induction ps generalizing todo with
  | nil => simp
  | cons p rest ih => simp [nvmedReadLoop, ih]

lemma nvmedReadLoop_oks (ps todo : List Packet) :
    nvmedReadLoop (ps.map .ok) todo = (todo ++ ps, .running) := by
  have h := nvmedReadLoop_append_oks ps [] todo
  simpa [nvmedReadLoop] using h

lemma pciBusIterRun_stopped (fuel n : Nat) (h : 32 ≤ n) : pciBusIterRun fuel n = [] := by
  cases fuel with
  | zero => simp [pciBusIterRun]
  | succ m => simp [pciBusIterRun, pciBusIterNext, Nat.not_lt.2 h]

lemma pciBusIterRun_char (fuel : Nat) : ∀ n, n ≤ 32 → 32 ≤ n + fuel →
    pciBusIterRun fuel n = List.range' n (32 - n) := by
  induction fuel with
  | zero =>
    intro n h1 h2
    have h3 : n = 32 := by omega
    subst h3
    simp [pciBusIterRun]
  | succ m ih =>
    intro n h1 h2
    by_cases h : n < 32
    · simp only [pciBusIterRun, pciBusIterNext, if_pos h]
      rw [ih (n + 1) (by omega) (by omega), Nat.mod_eq_of_lt (by omega),
        show 32 - n = (32 - (n + 1)) + 1 by omega, List.range'_succ]
    · have h3 : n = 32 := by omega
      subst h3
      simp only [Nat.sub_self, List.range'_zero]
      exact pciBusIterRun_stopped _ _ (by omega)

lemma e1000dIrqRetry_written_no_sentinel (h : σ → Packet → σ × Packet) (w : Packet → Bool)
    (s : σ) (todo : List Packet) :
    ∀ q ∈ (e1000dIrqRetry h w s todo).written, q.a ≠ sentinel := by
  induction todo generalizing s with
  | nil => simp [e1000dIrqRetry]
  | cons p rest ih =>
    simp only [e1000dIrqRetry]
    by_cases hb : (h s p).2.a = sentinel
    · simpa [hb] using ih (h s p).1
    · by_cases hw2 : w (h s p).2 = true
      · simp only [hb, if_neg, if_pos, hw2, ite_false, ite_true]
        intro q hq
        rcases List.mem_cons.1 hq with h1 | h1
        · subst h1; exact hb
        · exact ih (h s p).1 q h1
      · simp [hb, hw2]

lemma e1000dIrqRetry_todo_no_sentinel (h : σ → Packet → σ × Packet) (w : Packet → Bool)
    (s : σ) (todo : List Packet) (ht : ∀ q ∈ todo, q.a ≠ sentinel) :
    ∀ q ∈ (e1000dIrqRetry h w s todo).todo, q.a ≠ sentinel := by
  induction todo generalizing s with
  | nil => simp [e1000dIrqRetry]
  | cons p rest ih =>
    simp only [e1000dIrqRetry]
    by_cases hb : (h s p).2.a = sentinel
    · simp only [hb, ite_true]
      intro q hq
      rcases List.mem_cons.1 hq with h1 | h1
      · subst h1
        exact ht p (List.mem_cons_self _ _)
      · exact ih (h s p).1 (fun q hq => ht q (List.mem_cons_of_mem _ hq)) q h1
    · by_cases hw2 : w (h s p).2 = true
      · simp only [hb, hw2, ite_false, ite_true]
        exact ih (h s p).1 (fun q hq => ht q (List.mem_cons_of_mem _ hq))
      · simp only [hb, hw2, ite_false]
        intro q hq
        rcases List.mem_cons.1 hq with h1 | h1
        · subst h1; exact hb
        · exact ht q (List.mem_cons_of_mem _ h1)

lemma e1000dSocketEvent_written_no_sentinel (h : σ → Packet → σ × Packet)
    (w : Packet → Bool) (s : σ) (todo : List Packet) (r : ReadRes) :
    ∀ q ∈ (e1000dSocketEvent h w s todo r).written, q.a ≠ sentinel := by
  have hbody : ∀ p, ∀ q ∈ (e1000dSocketBody h w s todo p).written, q.a ≠ sentinel := by
    intro p q hq
    by_cases hb : (h s p).2.a = sentinel
    · simp [e1000dSocketBody, hb] at hq
    · by_cases hwr : w (h s p).2 = true
      · simp only [e1000dSocketBody, hb, hwr, if_neg, if_pos, ite_false, ite_true] at hq
        simp only [List.mem_singleton] at hq
        subst hq
        exact hb
      · simp [e1000dSocketBody, hb, hwr] at hq
  cases r with
  | ok p => exact hbody p
  | eof => exact hbody Packet.default
  | wouldBlock => simp [e1000dSocketEvent]
  | fatal => simp [e1000dSocketEvent]

lemma e1000dSocketEvent_todo_no_sentinel (h : σ → Packet → σ × Packet)
    (w : Packet → Bool) (s : σ) (todo : List Packet) (p : Packet)
    (hp : p.a ≠ sentinel) (ht : ∀ q ∈ todo, q.a ≠ sentinel) :
    ∀ q ∈ (e1000dSocketEvent h w s todo (.ok p)).todo, q.a ≠ sentinel := by
  intro q hq
  by_cases hb : (h s p).2.a = sentinel
  · simp only [e1000dSocketEvent, e1000dSocketBody, hb, ite_true] at hq
    rcases List.mem_append.1 hq with h1 | h1
    · exact ht q h1
    · rw [List.mem_singleton] at h1
      subst h1
      exact hp
  · by_cases hwr : w (h s p).2 = true <;>
      simp only [e1000dSocketEvent, e1000dSocketBody, hb, hwr, ite_false, ite_true] at hq <;>
      exact ht q hq

/-! Field lemmas for the TRB constructors: each written control word
carries the 6-bit type tag of its constructor in bits 15..10 and the
cycle argument in bit 0. -/

lemma trbFields_reserved (cycle : Bool) :
    (Trb.reserved cycle).trb_type = TrbType.Reserved.val ∧
    (Trb.reserved cycle).control % 2 = cycle.toNat := by
  constructor
  · simp only [Trb.trb_type, Trb.reserved, Trb.set, TRB_CONTROL_TRB_TYPE_MASK,
      TRB_CONTROL_TRB_TYPE_SHIFT, TrbType.val, mask_extract, or_shiftRight, or_mod64]
    simp [field_tag, field_bool]
  · simp only [Trb.reserved, Trb.set, TrbType.val, or_mod2]
    simp [shift_mod2, bool_mod2]

lemma trbFields_link (address : Nat) (toggle cycle : Bool) :
    (Trb.link address toggle cycle).trb_type = TrbType.Link.val ∧
    (Trb.link address toggle cycle).control % 2 = cycle.toNat := by
  constructor
  · simp only [Trb.trb_type, Trb.link, Trb.set, TRB_CONTROL_TRB_TYPE_MASK,
      TRB_CONTROL_TRB_TYPE_SHIFT, TrbType.val, mask_extract, or_shiftRight, or_mod64]
    simp [field_tag, field_bool, field_bool_shift]
  · simp only [Trb.link, Trb.set, TrbType.val, or_mod2]
    simp [shift_mod2, bool_mod2]

lemma trbFields_no_op_cmd (cycle : Bool) :
    (Trb.no_op_cmd cycle).trb_type = TrbType.NoOpCmd.val ∧
    (Trb.no_op_cmd cycle).control % 2 = cycle.toNat := by
  constructor
  · simp only [Trb.trb_type, Trb.no_op_cmd, Trb.set, TRB_CONTROL_TRB_TYPE_MASK,
      TRB_CONTROL_TRB_TYPE_SHIFT, TrbType.val, mask_extract, or_shiftRight, or_mod64]
    simp [field_tag, field_bool]
  · simp only [Trb.no_op_cmd, Trb.set, TrbType.val, or_mod2]
    simp [shift_mod2, bool_mod2]

lemma trbFields_enable_slot (slot_type : Nat) (cycle : Bool) :
    (Trb.enable_slot slot_type cycle).trb_type = TrbType.EnableSlot.val ∧
    (Trb.enable_slot slot_type cycle).control % 2 = cycle.toNat := by
  constructor
  · simp only [Trb.trb_type, Trb.enable_slot, Trb.set, TRB_CONTROL_TRB_TYPE_MASK,
      TRB_CONTROL_TRB_TYPE_SHIFT, TrbType.val, mask_extract, or_shiftRight, or_mod64]
    simp [field_high, field_tag, field_bool]
  · simp only [Trb.enable_slot, Trb.set, TrbType.val, or_mod2]
    simp [shift_mod2, bool_mod2]

lemma trbFields_address_device (slot_id ptr : Nat) (bsr cycle : Bool) (t : Trb)
    (h : Trb.address_device slot_id ptr bsr cycle = some t) :
    t.trb_type = TrbType.AddressDevice.val ∧ t.control % 2 = cycle.toNat := by
  unfold Trb.address_device at h
  split at h
  · cases h
    constructor
    · simp only [Trb.trb_type, Trb.set, TRB_CONTROL_TRB_TYPE_MASK,
        TRB_CONTROL_TRB_TYPE_SHIFT, TrbType.val, mask_extract, or_shiftRight, or_mod64]
      simp [field_high, field_tag, field_bool, field_bool_shift]
    · simp only [Trb.set, TrbType.val, or_mod2]
      simp [shift_mod2, bool_mod2]
  · exact absurd h (by simp)

lemma trbFields_configure_endpoint (slot_id ptr : Nat) (cycle : Bool) (t : Trb)
    (h : Trb.configure_endpoint slot_id ptr cycle = some t) :
    t.trb_type = TrbType.ConfigureEndpoint.val ∧ t.control % 2 = cycle.toNat := by
  unfold Trb.configure_endpoint at h
  split at h
  · cases h
    constructor
    · simp only [Trb.trb_type, Trb.set, TRB_CONTROL_TRB_TYPE_MASK,
        TRB_CONTROL_TRB_TYPE_SHIFT, TrbType.val, mask_extract, or_shiftRight, or_mod64]
      simp [field_high, field_tag, field_bool]
    · simp only [Trb.set, TrbType.val, or_mod2]
      simp [shift_mod2, bool_mod2]
  · exact absurd h (by simp)

lemma trbFields_evaluate_context (slot_id ptr : Nat) (bsr cycle : Bool) (t : Trb)
    (h : Trb.evaluate_context slot_id ptr bsr cycle = some t) :
    t.trb_type = TrbType.EvaluateContext.val ∧ t.control % 2 = cycle.toNat := by
  unfold Trb.evaluate_context at h
  split at h
  · cases h
    constructor
    · simp only [Trb.trb_type, Trb.set, TRB_CONTROL_TRB_TYPE_MASK,
        TRB_CONTROL_TRB_TYPE_SHIFT, TrbType.val, mask_extract, or_shiftRight, or_mod64]
      simp [field_high, field_tag, field_bool, field_bool_shift]
    · simp only [Trb.set, TrbType.val, or_mod2]
      simp [shift_mod2, bool_mod2]
  · exact absurd h (by simp)

lemma trbFields_reset_endpoint (slot_id endp : Nat) (tsp cycle : Bool) (t : Trb)
    (h : Trb.reset_endpoint slot_id endp tsp cycle = some t) :
    t.trb_type = TrbType.ResetEndpoint.val ∧ t.control % 2 = cycle.toNat := by
  unfold Trb.reset_endpoint at h
  split at h
  · cases h
    constructor
    · simp only [Trb.trb_type, Trb.set, TRB_CONTROL_TRB_TYPE_MASK,
        TRB_CONTROL_TRB_TYPE_SHIFT, TrbType.val, mask_extract, or_shiftRight, or_mod64]
      simp [field_high, field_tag, field_bool, field_bool_shift]
    · simp only [Trb.set, TrbType.val, or_mod2]
      simp [shift_mod2, bool_mod2]
  · exact absurd h (by simp)

lemma trbFields_set_tr_deque_ptr (deque_ptr sct stream_id endp slot : Nat) (cycle : Bool)
    (t : Trb) (h : Trb.set_tr_deque_ptr deque_ptr cycle sct stream_id endp slot = some t) :
    t.trb_type = TrbType.SetTrDequeuePointer.val ∧ t.control % 2 = cycle.toNat := by
  unfold Trb.set_tr_deque_ptr at h
  split at h
  · split at h
    · cases h
      constructor
      · simp only [Trb.trb_type, Trb.set, TRB_CONTROL_TRB_TYPE_MASK,
          TRB_CONTROL_TRB_TYPE_SHIFT, TrbType.val, mask_extract, or_shiftRight, or_mod64]
        simp [field_high, field_tag, field_bool]
      · simp only [Trb.set, TrbType.val, or_mod2]
        simp [shift_mod2, bool_mod2]
    · exact absurd h (by simp)
  · exact absurd h (by simp)

lemma trbFields_stop_endpoint (slot_id endp : Nat) (suspend cycle : Bool) (t : Trb)
    (h : Trb.stop_endpoint slot_id endp suspend cycle = some t) :
    t.trb_type = TrbType.StopEndpoint.val ∧ t.control % 2 = cycle.toNat := by
  unfold Trb.stop_endpoint at h
  split at h
  · cases h
    constructor
    · simp only [Trb.trb_type, Trb.set, TRB_CONTROL_TRB_TYPE_MASK,
        TRB_CONTROL_TRB_TYPE_SHIFT, TrbType.val, mask_extract, or_shiftRight, or_mod64]
      simp [field_high, field_tag, field_bool, field_bool_shift]
    · simp only [Trb.set, TrbType.val, or_mod2]
      simp [shift_mod2, bool_mod2]
  · exact absurd h (by simp)

lemma trbFields_reset_device (slot_id : Nat) (cycle : Bool) :
    (Trb.reset_device slot_id cycle).trb_type = TrbType.ResetDevice.val ∧
    (Trb.reset_device slot_id cycle).control % 2 = cycle.toNat := by
  constructor
  · simp only [Trb.trb_type, Trb.reset_device, Trb.set, TRB_CONTROL_TRB_TYPE_MASK,
      TRB_CONTROL_TRB_TYPE_SHIFT, TrbType.val, mask_extract, or_shiftRight, or_mod64]
    simp [field_high, field_tag, field_bool]
  · simp only [Trb.reset_device, Trb.set, TrbType.val, or_mod2]
    simp [shift_mod2, bool_mod2]

lemma trbFields_transfer_no_op (interrupter : Nat) (ent ch ioc cycle : Bool) :
    (Trb.transfer_no_op interrupter ent ch ioc cycle).trb_type = TrbType.NoOp.val ∧
    (Trb.transfer_no_op interrupter ent ch ioc cycle).control % 2 = cycle.toNat := by
  constructor
  · simp only [Trb.trb_type, Trb.transfer_no_op, Trb.set, TRB_CONTROL_TRB_TYPE_MASK,
      TRB_CONTROL_TRB_TYPE_SHIFT, TrbType.val, mask_extract, or_shiftRight, or_mod64]
    simp [field_tag, field_bool, field_bool_shift]
  · simp only [Trb.transfer_no_op, Trb.set, TrbType.val, or_mod2]
    simp [shift_mod2, bool_mod2]

lemma trbFields_setup (setup : Nat) (transfer : TransferKind) (cycle : Bool) :
    (Trb.setup setup transfer cycle).trb_type = TrbType.SetupStage.val ∧
    (Trb.setup setup transfer cycle).control % 2 = cycle.toNat := by
  constructor
  · simp only [Trb.trb_type, Trb.setup, Trb.set, TRB_CONTROL_TRB_TYPE_MASK,
      TRB_CONTROL_TRB_TYPE_SHIFT, TrbType.val, mask_extract, or_shiftRight, or_mod64]
    simp [field_high, field_tag, field_bool]
  · simp only [Trb.setup, Trb.set, TrbType.val, or_mod2]
    simp [shift_mod2, bool_mod2]

lemma trbFields_data_stage (buffer length : Nat) (input cycle : Bool) :
    (Trb.data_stage buffer length input cycle).trb_type = TrbType.DataStage.val ∧
    (Trb.data_stage buffer length input cycle).control % 2 = cycle.toNat := by
  constructor
  · simp only [Trb.trb_type, Trb.data_stage, Trb.set, TRB_CONTROL_TRB_TYPE_MASK,
      TRB_CONTROL_TRB_TYPE_SHIFT, TrbType.val, mask_extract, or_shiftRight, or_mod64]
    simp [field_high, field_tag, field_bool, field_bool_shift]
  · simp only [Trb.data_stage, Trb.set, TrbType.val, or_mod2]
    simp [shift_mod2, bool_mod2]

lemma trbFields_status_stage (input cycle : Bool) :
    (Trb.status_stage input cycle).trb_type = TrbType.StatusStage.val ∧
    (Trb.status_stage input cycle).control % 2 = cycle.toNat := by
  constructor
  · simp only [Trb.trb_type, Trb.status_stage, Trb.set, TRB_CONTROL_TRB_TYPE_MASK,
      TRB_CONTROL_TRB_TYPE_SHIFT, TrbType.val, mask_extract, or_shiftRight, or_mod64]
    simp [field_high, field_tag, field_bool, field_bool_shift]
  · simp only [Trb.status_stage, Trb.set, TrbType.val, or_mod2]
    simp [shift_mod2, bool_mod2]

lemma trbFields_normal (buffer len estimated_td_size interrupter : Nat)
    (cycle ent isp chain ioc idt bei : Bool) (t : Trb)
    (h : Trb.normal buffer len cycle estimated_td_size interrupter
      ent isp chain ioc idt bei = some t) :
    t.trb_type = TrbType.Normal.val ∧ t.control % 2 = cycle.toNat := by
  unfold Trb.normal at h
  split at h
  · cases h
    constructor
    · simp only [Trb.trb_type, Trb.set, TRB_CONTROL_TRB_TYPE_MASK,
        TRB_CONTROL_TRB_TYPE_SHIFT, TrbType.val, mask_extract, or_shiftRight, or_mod64]
      simp [field_tag, field_bool, field_bool_shift]
    · simp only [Trb.set, TrbType.val, or_mod2]
      simp [shift_mod2, bool_mod2]
  · exact absurd h (by simp)

/-- C1: on every interrupt dispatch, all parked requests are re-attempted
in arrival order, oldest first (the handler invocation trace equals the
pending list); a request whose handler still reports the would-block
outcome remains in the pending list at the same relative position (the
new list is the order-preserving sublist of still-blocking requests,
with the operation word restored in e1000d), and a request whose handler
now produces a result is removed from the list and its response written
back to the client transport. Stated for the e1000d irq retry loop
(sentinel protocol) and the nvmed retry loop (Option protocol), under
the assumption that the transport writes succeed. -/
theorem claimC1 {σ σ2 : Type} (h : σ → Packet → σ × Packet) (w : Packet → Bool)
    (hw : ∀ p, w p = true) (s : σ) (todo : List Packet)
    (h2 : σ2 → Packet → σ2 × Option Nat) (w2 : Packet → Bool)
    (hw2 : ∀ p, w2 p = true) (s2 : σ2) (todo2 : List Packet) :
    (e1000dIrqRetry h w s todo).trace = todo ∧
    (e1000dIrqRetry h w s todo).todo =
      ((attemptsE h s todo).2.filter (fun q => q.2.a == sentinel)).map
        (fun q => { q.2 with a := q.1.a }) ∧
    (e1000dIrqRetry h w s todo).written =
      ((attemptsE h s todo).2.filter (fun q => !(q.2.a == sentinel))).map (fun q => q.2) ∧
    (nvmedRetry h2 w2 s2 todo2).trace = todo2 ∧
    (nvmedRetry h2 w2 s2 todo2).todo =
      ((attemptsN h2 s2 todo2).2.filter (fun q => q.2.isNone)).map (fun q => q.1) ∧
    (nvmedRetry h2 w2 s2 todo2).written =
      (attemptsN h2 s2 todo2).2.filterMap (fun q => q.2.map (fun a => { q.1 with a := a })) := by
  obtain ⟨-, -, h3, h4, h5⟩ := e1000dIrqRetry_char h w hw s todo
  obtain ⟨-, -, g3, g4, g5⟩ := nvmedRetry_char h2 w2 hw2 s2 todo2
  exact ⟨h3, h4, h5, g3, g4, g5⟩

/-- Witness for C1 at a concrete handler and two concrete pending lists:
the handler parks packets whose id is 0 and completes the others. -/
theorem claimC1_witness :
    (e1000dIrqRetry (fun (_ : Unit) p => ((), if p.id == 0 then { p with a := sentinel } else { p with a := 7 }))
        (fun _ => true) () [⟨1, 0, 0⟩, ⟨2, 1, 0⟩]).trace = [⟨1, 0, 0⟩, ⟨2, 1, 0⟩] ∧
    (e1000dIrqRetry (fun (_ : Unit) p => ((), if p.id == 0 then { p with a := sentinel } else { p with a := 7 }))
        (fun _ => true) () [⟨1, 0, 0⟩, ⟨2, 1, 0⟩]).todo =
      ((attemptsE (fun (_ : Unit) p => ((), if p.id == 0 then { p with a := sentinel } else { p with a := 7 })) () [⟨1, 0, 0⟩, ⟨2, 1, 0⟩]).2.filter
        (fun q => q.2.a == sentinel)).map (fun q => { q.2 with a := q.1.a }) ∧
    (e1000dIrqRetry (fun (_ : Unit) p => ((), if p.id == 0 then { p with a := sentinel } else { p with a := 7 }))
        (fun _ => true) () [⟨1, 0, 0⟩, ⟨2, 1, 0⟩]).written =
      ((attemptsE (fun (_ : Unit) p => ((), if p.id == 0 then { p with a := sentinel } else { p with a := 7 })) () [⟨1, 0, 0⟩, ⟨2, 1, 0⟩]).2.filter
        (fun q => !(q.2.a == sentinel))).map (fun q => q.2) ∧
    (nvmedRetry (fun (_ : Unit) p => ((), if p.id == 0 then none else some 9))
        (fun _ => true) () [⟨4, 0, 0⟩, ⟨5, 1, 0⟩]).trace = [⟨4, 0, 0⟩, ⟨5, 1, 0⟩] ∧
    (nvmedRetry (fun (_ : Unit) p => ((), if p.id == 0 then none else some 9))
        (fun _ => true) () [⟨4, 0, 0⟩, ⟨5, 1, 0⟩]).todo =
      ((attemptsN (fun (_ : Unit) p => ((), if p.id == 0 then none else some 9)) () [⟨4, 0, 0⟩, ⟨5, 1, 0⟩]).2.filter
        (fun q => q.2.isNone)).map (fun q => q.1) ∧
    (nvmedRetry (fun (_ : Unit) p => ((), if p.id == 0 then none else some 9))
        (fun _ => true) () [⟨4, 0, 0⟩, ⟨5, 1, 0⟩]).written =
      (attemptsN (fun (_ : Unit) p => ((), if p.id == 0 then none else some 9)) () [⟨4, 0, 0⟩, ⟨5, 1, 0⟩]).2.filterMap
        (fun q => q.2.map (fun a => { q.1 with a := a })) :=
  claimC1 _ _ (fun _ => rfl) () _ _ _ (fun _ => rfl) () _

/-- C2: when a newly read client request is handed to the device handler,
immediate completion means the result is written back to the client at
once (pending list untouched), and a would-block report means the
request is appended at the tail of the pending list with no response
written in that cycle. Stated for the e1000d socket closure, and for a
fresh nvmed cycle whose pending list is empty, where the new packet is
pushed and then resolved by the retry loop of the same cycle. -/
theorem claimC2 {σ σ2 : Type} (h : σ → Packet → σ × Packet) (w : Packet → Bool)
    (s : σ) (todo : List Packet) (p : Packet)
    (h2 : σ2 → Packet → σ2 × Option Nat) (w2 : Packet → Bool) (s2 : σ2) (p2 : Packet) :
    ((h s p).2.a ≠ sentinel → w (h s p).2 = true →
      e1000dSocketEvent h w s todo (.ok p) =
        ⟨(h s p).1, todo, [(h s p).2], [p], .running⟩) ∧
    ((h s p).2.a = sentinel →
      e1000dSocketEvent h w s todo (.ok p) =
        ⟨(h s p).1, todo ++ [{ (h s p).2 with a := p.a }], [], [p], .running⟩) ∧
    (∀ a, (h2 s2 p2).2 = some a → w2 { p2 with a := a } = true →
      nvmedSocketCycle h2 w2 s2 [] [.ok p2] =
        ⟨(h2 s2 p2).1, [], [{ p2 with a := a }], [p2], .running⟩) ∧
    ((h2 s2 p2).2 = none →
      nvmedSocketCycle h2 w2 s2 [] [.ok p2] =
        ⟨(h2 s2 p2).1, [p2], [], [p2], .running⟩) := by
  refine ⟨?_, ?_, ?_, ?_⟩
  · intro hb hwr
    simp [e1000dSocketEvent, e1000dSocketBody, hb, hwr]
  · intro hb
    simp [e1000dSocketEvent, e1000dSocketBody, hb]
  · intro a ha hwr
    have hr : nvmedReadLoop [.ok p2] [] = ([p2], .running) := by
      simp [nvmedReadLoop]
    rcases hres : h2 s2 p2 with ⟨s3, r⟩
    have hra : r = some a := by rw [hres] at ha; exact ha
    subst hra
    simp [nvmedSocketCycle, hr, nvmedRetry, hres, hwr]
  · intro ha
    have hr : nvmedReadLoop [.ok p2] [] = ([p2], .running) := by
      simp [nvmedReadLoop]
    rcases hres : h2 s2 p2 with ⟨s3, r⟩
    have hra : r = none := by rw [hres] at ha; exact ha
    subst hra
    simp [nvmedSocketCycle, hr, nvmedRetry, hres]

/-- Witness for C2: a completing handler and a parking handler, each on a
single concrete packet, for both drivers. -/
theorem claimC2_witness :
    e1000dSocketEvent (fun (_ : Unit) p => ((), { p with a := 42 })) (fun _ => true) ()
      [] (.ok ⟨1, 0, 0⟩) = ⟨(), [], [⟨42, 0, 0⟩], [⟨1, 0, 0⟩], .running⟩ ∧
    e1000dSocketEvent (fun (_ : Unit) p => ((), { p with a := sentinel })) (fun _ => true) ()
      [] (.ok ⟨1, 0, 0⟩) = ⟨(), [⟨1, 0, 0⟩], [], [⟨1, 0, 0⟩], .running⟩ ∧
    nvmedSocketCycle (fun (_ : Unit) _ => ((), some 9)) (fun _ => true) () [] [.ok ⟨1, 0, 0⟩] =
      ⟨(), [], [⟨9, 0, 0⟩], [⟨1, 0, 0⟩], .running⟩ ∧
    nvmedSocketCycle (fun (_ : Unit) _ => ((), none)) (fun _ => true) () [] [.ok ⟨1, 0, 0⟩] =
      ⟨(), [⟨1, 0, 0⟩], [], [⟨1, 0, 0⟩], .running⟩ :=
  ⟨(claimC2 (fun (_ : Unit) p => ((), { p with a := 42 })) (fun _ => true) () [] ⟨1, 0, 0⟩
      (fun (_ : Unit) _ => ((), some 9)) (fun _ => true) () ⟨1, 0, 0⟩).1 (by decide) rfl,
   (claimC2 (fun (_ : Unit) p => ((), { p with a := sentinel })) (fun _ => true) () [] ⟨1, 0, 0⟩
      (fun (_ : Unit) _ => ((), some 9)) (fun _ => true) () ⟨1, 0, 0⟩).2.1 rfl,
   (claimC2 (fun (_ : Unit) p => ((), { p with a := 42 })) (fun _ => true) () [] ⟨1, 0, 0⟩
      (fun (_ : Unit) _ => ((), some 9)) (fun _ => true) () ⟨1, 0, 0⟩).2.2.1 9 rfl rfl,
   (claimC2 (fun (_ : Unit) p => ((), { p with a := 42 })) (fun _ => true) () [] ⟨1, 0, 0⟩
      (fun (_ : Unit) _ => ((), none)) (fun _ => true) () ⟨1, 0, 0⟩).2.2.2 rfl⟩

/-- Counterexample to C3: in the e1000d dispatcher, with one request
parked in the todo list, a socket event hands the newly read request to
the device handler at once; the invocation trace of the cycle contains
only the new request, while the earlier parked request stays pending and
is not attempted first. This refutes the claim that in every dispatch
cycle all previously parked requests are re-attempted before any newly
arrived request is handed to the handler. -/
theorem claimC3_cex :
    (e1000dSocketEvent (fun (_ : Unit) p => ((), { p with a := sentinel }))
      (fun _ => true) () [⟨1, 5, 0⟩] (.ok ⟨2, 6, 0⟩)).trace = [⟨2, 6, 0⟩] ∧
    (⟨1, 5, 0⟩ : Packet) ∈ (e1000dSocketEvent (fun (_ : Unit) p => ((), { p with a := sentinel }))
      (fun _ => true) () [⟨1, 5, 0⟩] (.ok ⟨2, 6, 0⟩)).todo ∧
    (⟨1, 5, 0⟩ : Packet) ∉ (e1000dSocketEvent (fun (_ : Unit) p => ((), { p with a := sentinel }))
      (fun _ => true) () [⟨1, 5, 0⟩] (.ok ⟨2, 6, 0⟩)).trace := by
  decide

/-- C3 as amended: in the nvmed dispatcher, every socket cycle
re-attempts all previously parked requests in arrival order before any
newly arrived request is attempted, because the new requests are pushed
at the tail of the pending list and the retry loop walks the list in
order. In the e1000d dispatcher this ordering does not hold: a socket
event hands only the newly read request to the handler, leaving parked
requests untouched until the next interrupt. -/
theorem claimC3_amended {σ σ2 : Type} (h2 : σ2 → Packet → σ2 × Option Nat)
    (w2 : Packet → Bool) (hw2 : ∀ q, w2 q = true) (s2 : σ2) (todo2 ps : List Packet)
    (h : σ → Packet → σ × Packet) (w : Packet → Bool) (s : σ) (todo : List Packet) (p : Packet) :
    (nvmedSocketCycle h2 w2 s2 todo2 (ps.map .ok)).trace = todo2 ++ ps ∧
    (e1000dSocketEvent h w s todo (.ok p)).trace = [p] := by
  constructor
  · rw [nvmedSocketCycle, nvmedReadLoop_oks]
    exact (nvmedRetry_char h2 w2 hw2 s2 (todo2 ++ ps)).2.2.1
  · by_cases hb : (h s p).2.a = sentinel
    · simp [e1000dSocketEvent, e1000dSocketBody, hb]
    · by_cases hwr : w (h s p).2 = true
      · simp [e1000dSocketEvent, e1000dSocketBody, hb, hwr]
      · simp [e1000dSocketEvent, e1000dSocketBody, hb, hwr]

/-- Witness for the amended C3 at a concrete handler, one parked and one
new request. -/
theorem claimC3_amended_witness :
    (nvmedSocketCycle (fun (_ : Unit) _ => ((), some 1)) (fun _ => true) () [⟨1, 0, 0⟩]
      ([⟨2, 0, 0⟩].map .ok)).trace = [⟨1, 0, 0⟩] ++ [⟨2, 0, 0⟩] ∧
    (e1000dSocketEvent (fun (_ : Unit) p => ((), p)) (fun _ => true) () []
      (.ok ⟨3, 0, 0⟩)).trace = [⟨3, 0, 0⟩] :=
  claimC3_amended (fun (_ : Unit) _ => ((), some 1)) (fun _ => true) (fun _ => rfl) ()
    [⟨1, 0, 0⟩] [⟨2, 0, 0⟩] (fun (_ : Unit) p => ((), p)) (fun _ => true) () [] ⟨3, 0, 0⟩

/-- Counterexample to C4: in nvmed, an interrupt event whose claim check
returns false still runs the parked-request retry loop (dispatch occurs
although the device did not claim the interrupt), and in e1000d, when
the device does claim the interrupt, the acknowledgment write is the
action directly after the claim check, before the parked-request retry
work rather than after it. -/
theorem claimC4_cex :
    (.retryAttempt ⟨3, 0, 0⟩) ∈ nvmedIrqTrace 8 false [⟨3, 0, 0⟩] ∧
    (.ackWrite : IrqAction) ∉ nvmedIrqTrace 8 false [⟨3, 0, 0⟩] ∧
    e1000dIrqTrace true [⟨3, 0, 0⟩] =
      [.readIrqFile, .claimCheck true, .ackWrite, .retryAttempt ⟨3, 0, 0⟩] := by
  decide

/-- C4 as amended: on an interrupt-line event the driver first asks the
device whether it asserted the interrupt. In e1000d, a refused claim
means no acknowledgment and no parked-request retry; a confirmed claim
is followed immediately by the acknowledgment write and only then by the
retries. In nvmed, a refused claim (or a short irq-file read) means no
acknowledgment, but the retry loop still runs afterwards; a confirmed
claim is likewise acknowledged immediately after the claim check and
before the retries. -/
theorem claimC4_amended :
    (∀ todo, (.ackWrite : IrqAction) ∉ e1000dIrqTrace false todo ∧
      ∀ p, (.retryAttempt p : IrqAction) ∉ e1000dIrqTrace false todo) ∧
    (∀ todo, e1000dIrqTrace true todo =
      .readIrqFile :: .claimCheck true :: .ackWrite :: todo.map .retryAttempt) ∧
    (∀ rl todo, (.ackWrite : IrqAction) ∉ nvmedIrqTrace rl false todo) ∧
    (∀ rl todo p, p ∈ todo → (.retryAttempt p : IrqAction) ∈ nvmedIrqTrace rl false todo) ∧
    (∀ rl todo, 8 ≤ rl → nvmedIrqTrace rl true todo =
      .readIrqFile :: .claimCheck true :: .ackWrite :: todo.map .retryAttempt) := by
  refine ⟨?_, ?_, ?_, ?_, ?_⟩
  · intro todo
    constructor
    · simp [e1000dIrqTrace]
    · intro p
      simp [e1000dIrqTrace]
  · intro todo
    simp [e1000dIrqTrace]
  · intro rl todo
    by_cases hrl : 8 ≤ rl <;> simp [nvmedIrqTrace, hrl]
  · intro rl todo p hp
    unfold nvmedIrqTrace
    apply List.mem_cons_of_mem
    apply List.mem_append_right
    exact List.mem_map_of_mem _ hp
  · intro rl todo hrl
    simp [nvmedIrqTrace, hrl]

/-- Witness for the amended C4 at a concrete pending list and read
length. -/
theorem claimC4_amended_witness :
    (.retryAttempt ⟨3, 0, 0⟩ : IrqAction) ∈ nvmedIrqTrace 9 false [⟨3, 0, 0⟩] ∧
    nvmedIrqTrace 8 true [⟨3, 0, 0⟩] =
      [.readIrqFile, .claimCheck true, .ackWrite, .retryAttempt ⟨3, 0, 0⟩] :=
  ⟨claimC4_amended.2.2.2.1 9 [⟨3, 0, 0⟩] ⟨3, 0, 0⟩ (by decide),
   claimC4_amended.2.2.2.2 8 [⟨3, 0, 0⟩] (by decide)⟩

/-- C5: for every completion-type record, the decoder extracts the
completion code from bits 31..24 of the status word, the originating
slot id from bits 31..24 of the control word, and the record type from
bits 15..10 of the control word; in particular a record whose control
encodes type CommandCompletion and slot 5 and whose status encodes the
completion code Success (1) decodes to a successful outcome with
slot 5. -/
theorem claimC5 :
    (∀ t : Trb, t.completion_code = t.status / 2 ^ 24 % 2 ^ 8) ∧
    (∀ t : Trb, t.event_slot = t.control / 2 ^ 24 % 2 ^ 8) ∧
    (∀ t : Trb, t.trb_type = t.control / 2 ^ 10 % 2 ^ 6) ∧
    (Trb.mk 0 (TrbCompletionCode.Success.val <<< 24)
      ((5 <<< 24) ||| (TrbType.CommandCompletion.val <<< 10))).trb_type =
        TrbType.CommandCompletion.val ∧
    (Trb.mk 0 (TrbCompletionCode.Success.val <<< 24)
      ((5 <<< 24) ||| (TrbType.CommandCompletion.val <<< 10))).event_slot = 5 ∧
    (Trb.mk 0 (TrbCompletionCode.Success.val <<< 24)
      ((5 <<< 24) ||| (TrbType.CommandCompletion.val <<< 10))).completion_code =
        TrbCompletionCode.Success.val := by
  refine ⟨?_, ?_, ?_, by decide, by decide, by decide⟩
  · intro t
    simp only [Trb.completion_code, TRB_STATUS_COMPLETION_CODE_SHIFT,
      Nat.shiftRight_eq_div_pow]
    norm_num
  · intro t
    simp only [Trb.event_slot, Nat.shiftRight_eq_div_pow]
    norm_num
  · intro t
    have hm := mask_extract t.control
    simp only [Trb.trb_type, TRB_CONTROL_TRB_TYPE_MASK, TRB_CONTROL_TRB_TYPE_SHIFT]
    rw [hm, Nat.shiftRight_eq_div_pow]
    norm_num

/-- Counterexample to C6: the e1000d socket closure ignores the byte
count returned by the read, so a zero-byte read (end of stream) does not
terminate its dispatcher loop; the cycle exits as running and the device
handler is even invoked on the all-zero default packet the read left in
the buffer. -/
theorem claimC6_cex :
    (e1000dSocketEvent (fun (_ : Unit) p => ((), { p with a := 7 }))
      (fun _ => true) () [] .eof).exit = .running ∧
    (e1000dSocketEvent (fun (_ : Unit) p => ((), { p with a := 7 }))
      (fun _ => true) () [] .eof).trace = [⟨0, 0, 0⟩] := by
  decide

/-- C6 as amended: in the nvmed dispatcher a zero-byte read of the client
transport terminates the dispatcher loop (break of the outer events
loop, skipping the retry loop of that cycle), and after any other
successful read the inner loop continues consuming requests. The e1000d
dispatcher performs no such zero-length check: a zero-byte read leaves
its loop running, handling a default packet. -/
theorem claimC6_amended {σ σ2 : Type} (ps : List Packet) (rest : List ReadRes)
    (todo : List Packet) (h2 : σ2 → Packet → σ2 × Option Nat) (w2 : Packet → Bool)
    (s2 : σ2) (todo2 : List Packet)
    (h : σ → Packet → σ × Packet) (w : Packet → Bool) (s : σ) (todo3 : List Packet) :
    nvmedReadLoop (ps.map .ok ++ .eof :: rest) todo = (todo ++ ps, .closed) ∧
    (nvmedSocketCycle h2 w2 s2 todo2 (ps.map .ok ++ .eof :: rest)).exit = .closed ∧
    (e1000dSocketEvent h w s todo3 .eof).exit ≠ .closed := by
  refine ⟨?_, ?_, ?_⟩
  · rw [nvmedReadLoop_append_oks, nvmedReadLoop]
  · rw [nvmedSocketCycle, nvmedReadLoop_append_oks, nvmedReadLoop]
  · by_cases hb : (h s Packet.default).2.a = sentinel
    · simp [e1000dSocketEvent, e1000dSocketBody, hb]
    · by_cases hwr : w (h s Packet.default).2 = true <;>
        simp [e1000dSocketEvent, e1000dSocketBody, hb, hwr]

/-- C7: a client-transport read failing with the would-block condition is
treated as nothing to do for that cycle (the inner read loop stops, the
retry loop still runs and the dispatcher keeps running), while any other
read error, and any write error while flushing a completed request,
terminates the driver process (the expect panics). Stated for the nvmed
dispatcher, whose error handling the claim cites. -/
theorem claimC7 {σ : Type} (h : σ → Packet → σ × Option Nat) (w : Packet → Bool)
    (s : σ) (todo ps : List Packet) (rest : List ReadRes) (p : Packet) (a : Nat) :
    nvmedReadLoop (ps.map .ok ++ .wouldBlock :: rest) todo = (todo ++ ps, .running) ∧
    ((∀ q, w q = true) →
      (nvmedSocketCycle h w s todo (ps.map .ok ++ .wouldBlock :: rest)).exit = .running) ∧
    (nvmedSocketCycle h w s todo (ps.map .ok ++ .fatal :: rest)).exit = .panicked ∧
    ((h s p).2 = some a → w { p with a := a } = false →
      (nvmedRetry h w s (p :: todo)).exit = .panicked) := by
  refine ⟨?_, ?_, ?_, ?_⟩
  · rw [nvmedReadLoop_append_oks, nvmedReadLoop]
  · intro hw
    rw [nvmedSocketCycle, nvmedReadLoop_append_oks, nvmedReadLoop]
    exact (nvmedRetry_char h w hw s (todo ++ ps)).2.1
  · rw [nvmedSocketCycle, nvmedReadLoop_append_oks, nvmedReadLoop]
  · intro ha hwr
    rcases hres : h s p with ⟨s3, r⟩
    have hra : r = some a := by rw [hres] at ha; exact ha
    subst hra
    simp [nvmedRetry, hres, hwr]

/-- Witness for C7: a would-block read keeps the dispatcher running, and
a failing response write panics, at a concrete handler and packet. -/
theorem claimC7_witness :
    (nvmedSocketCycle (fun (_ : Unit) _ => ((), some 3)) (fun _ => true) () []
      ([⟨1, 0, 0⟩].map .ok ++ [.wouldBlock])).exit = .running ∧
    (nvmedRetry (fun (_ : Unit) _ => ((), some 3)) (fun _ => false) ()
      [⟨1, 0, 0⟩]).exit = .panicked :=
  ⟨(claimC7 (fun (_ : Unit) _ => ((), some 3)) (fun _ => true) () [] [⟨1, 0, 0⟩] []
      ⟨1, 0, 0⟩ 3).2.1 (fun _ => rfl),
   (claimC7 (fun (_ : Unit) _ => ((), some 3)) (fun _ => false) () [] [] []
      ⟨1, 0, 0⟩ 3).2.2.2 rfl rfl⟩

/-- C8: every TRB constructor writes a control word carrying the 6-bit
type tag of that constructor in bits 15..10 and the cycle argument in
bit 0, so decoding with trb_type returns the constructor type and bit 0
of control equals the cycle flag, for every choice of the remaining
arguments; constructors whose source asserts an argument precondition
are stated on their successful (some) results. -/
theorem claimC8 :
    (∀ cycle, (Trb.reserved cycle).trb_type = TrbType.Reserved.val ∧
      (Trb.reserved cycle).control % 2 = cycle.toNat) ∧
    (∀ address toggle cycle, (Trb.link address toggle cycle).trb_type = TrbType.Link.val ∧
      (Trb.link address toggle cycle).control % 2 = cycle.toNat) ∧
    (∀ cycle, (Trb.no_op_cmd cycle).trb_type = TrbType.NoOpCmd.val ∧
      (Trb.no_op_cmd cycle).control % 2 = cycle.toNat) ∧
    (∀ slot_type cycle, (Trb.enable_slot slot_type cycle).trb_type = TrbType.EnableSlot.val ∧
      (Trb.enable_slot slot_type cycle).control % 2 = cycle.toNat) ∧
    (∀ slot_id ptr bsr cycle t, Trb.address_device slot_id ptr bsr cycle = some t →
      t.trb_type = TrbType.AddressDevice.val ∧ t.control % 2 = cycle.toNat) ∧
    (∀ slot_id ptr cycle t, Trb.configure_endpoint slot_id ptr cycle = some t →
      t.trb_type = TrbType.ConfigureEndpoint.val ∧ t.control % 2 = cycle.toNat) ∧
    (∀ slot_id ptr bsr cycle t, Trb.evaluate_context slot_id ptr bsr cycle = some t →
      t.trb_type = TrbType.EvaluateContext.val ∧ t.control % 2 = cycle.toNat) ∧
    (∀ slot_id endp tsp cycle t, Trb.reset_endpoint slot_id endp tsp cycle = some t →
      t.trb_type = TrbType.ResetEndpoint.val ∧ t.control % 2 = cycle.toNat) ∧
    (∀ deque_ptr sct stream_id endp slot cycle t,
      Trb.set_tr_deque_ptr deque_ptr cycle sct stream_id endp slot = some t →
      t.trb_type = TrbType.SetTrDequeuePointer.val ∧ t.control % 2 = cycle.toNat) ∧
    (∀ slot_id endp suspend cycle t, Trb.stop_endpoint slot_id endp suspend cycle = some t →
      t.trb_type = TrbType.StopEndpoint.val ∧ t.control % 2 = cycle.toNat) ∧
    (∀ slot_id cycle, (Trb.reset_device slot_id cycle).trb_type = TrbType.ResetDevice.val ∧
      (Trb.reset_device slot_id cycle).control % 2 = cycle.toNat) ∧
    (∀ interrupter ent ch ioc cycle,
      (Trb.transfer_no_op interrupter ent ch ioc cycle).trb_type = TrbType.NoOp.val ∧
      (Trb.transfer_no_op interrupter ent ch ioc cycle).control % 2 = cycle.toNat) ∧
    (∀ setup transfer cycle, (Trb.setup setup transfer cycle).trb_type = TrbType.SetupStage.val ∧
      (Trb.setup setup transfer cycle).control % 2 = cycle.toNat) ∧
    (∀ buffer length input cycle,
      (Trb.data_stage buffer length input cycle).trb_type = TrbType.DataStage.val ∧
      (Trb.data_stage buffer length input cycle).control % 2 = cycle.toNat) ∧
    (∀ input cycle, (Trb.status_stage input cycle).trb_type = TrbType.StatusStage.val ∧
      (Trb.status_stage input cycle).control % 2 = cycle.toNat) ∧
    (∀ buffer len estimated_td_size interrupter cycle ent isp chain ioc idt bei t,
      Trb.normal buffer len cycle estimated_td_size interrupter ent isp chain ioc idt bei = some t →
      t.trb_type = TrbType.Normal.val ∧ t.control % 2 = cycle.toNat) :=
  ⟨trbFields_reserved, trbFields_link, trbFields_no_op_cmd, trbFields_enable_slot,
   fun slot_id ptr bsr cycle t h => trbFields_address_device slot_id ptr bsr cycle t h,
   fun slot_id ptr cycle t h => trbFields_configure_endpoint slot_id ptr cycle t h,
   fun slot_id ptr bsr cycle t h => trbFields_evaluate_context slot_id ptr bsr cycle t h,
   fun slot_id endp tsp cycle t h => trbFields_reset_endpoint slot_id endp tsp cycle t h,
   fun deque_ptr sct stream_id endp slot cycle t h =>
     trbFields_set_tr_deque_ptr deque_ptr sct stream_id endp slot cycle t h,
   fun slot_id endp suspend cycle t h => trbFields_stop_endpoint slot_id endp suspend cycle t h,
   trbFields_reset_device, trbFields_transfer_no_op, trbFields_setup, trbFields_data_stage,
   trbFields_status_stage,
   fun buffer len estimated_td_size interrupter cycle ent isp chain ioc idt bei t h =>
     trbFields_normal buffer len estimated_td_size interrupter cycle ent isp chain ioc idt bei t h⟩

/-- Witness for C8: the seven assert-carrying constructors applied at
concrete aligned and in-range arguments, with their some hypotheses
discharged by evaluation. -/
theorem claimC8_witness :
    ((Trb.set 16 0 ((5 <<< 24) ||| (11 <<< 10) ||| (1 <<< 9) ||| 1)).trb_type =
        TrbType.AddressDevice.val ∧
      (Trb.set 16 0 ((5 <<< 24) ||| (11 <<< 10) ||| (1 <<< 9) ||| 1)).control % 2 =
        Bool.toNat true) ∧
    ((Trb.set 16 0 ((5 <<< 24) ||| (12 <<< 10) ||| 1)).trb_type =
        TrbType.ConfigureEndpoint.val ∧
      (Trb.set 16 0 ((5 <<< 24) ||| (12 <<< 10) ||| 1)).control % 2 = Bool.toNat true) ∧
    ((Trb.set 16 0 ((5 <<< 24) ||| (13 <<< 10) ||| (0 <<< 9) ||| 1)).trb_type =
        TrbType.EvaluateContext.val ∧
      (Trb.set 16 0 ((5 <<< 24) ||| (13 <<< 10) ||| (0 <<< 9) ||| 1)).control % 2 =
        Bool.toNat true) ∧
    ((Trb.set 0 0 ((5 <<< 24) ||| (3 <<< 16) ||| (14 <<< 10) ||| (0 <<< 9) ||| 1)).trb_type =
        TrbType.ResetEndpoint.val ∧
      (Trb.set 0 0 ((5 <<< 24) ||| (3 <<< 16) ||| (14 <<< 10) ||| (0 <<< 9) ||| 1)).control % 2 =
        Bool.toNat true) ∧
    ((Trb.set (16 ||| (1 <<< 1)) (2 <<< 16)
        ((5 <<< 24) ||| (3 <<< 16) ||| (16 <<< 10) ||| 1)).trb_type =
        TrbType.SetTrDequeuePointer.val ∧
      (Trb.set (16 ||| (1 <<< 1)) (2 <<< 16)
        ((5 <<< 24) ||| (3 <<< 16) ||| (16 <<< 10) ||| 1)).control % 2 = Bool.toNat true) ∧
    ((Trb.set 0 0 ((5 <<< 24) ||| (0 <<< 23) ||| (3 <<< 16) ||| (15 <<< 10) ||| 1)).trb_type =
        TrbType.StopEndpoint.val ∧
      (Trb.set 0 0 ((5 <<< 24) ||| (0 <<< 23) ||| (3 <<< 16) ||| (15 <<< 10) ||| 1)).control % 2 =
        Bool.toNat true) ∧
    ((Trb.set 100 (7 ||| (2 <<< 17) ||| (0 <<< 22))
        (1 ||| (0 <<< 1) ||| (0 <<< 2) ||| (0 <<< 4) ||| (0 <<< 5) ||| (0 <<< 6) |||
          (0 <<< 9) ||| (1 <<< 10))).trb_type = TrbType.Normal.val ∧
      (Trb.set 100 (7 ||| (2 <<< 17) ||| (0 <<< 22))
        (1 ||| (0 <<< 1) ||| (0 <<< 2) ||| (0 <<< 4) ||| (0 <<< 5) ||| (0 <<< 6) |||
          (0 <<< 9) ||| (1 <<< 10))).control % 2 = Bool.toNat true) :=
  ⟨claimC8.2.2.2.2.1 5 16 true true _ (by decide),
   claimC8.2.2.2.2.2.1 5 16 true _ (by decide),
   claimC8.2.2.2.2.2.2.1 5 16 false true _ (by decide),
   claimC8.2.2.2.2.2.2.2.1 5 3 false true _ (by decide),
   claimC8.2.2.2.2.2.2.2.2.1 16 1 2 3 5 true _ (by decide),
   claimC8.2.2.2.2.2.2.2.2.2.1 5 3 false true _ (by decide),
   claimC8.2.2.2.2.2.2.2.2.2.2.2.2.2.2.2 100 7 2 0 true false false false false false false _
     (by decide)⟩

/-- C9: the pcid bus-device iterator yields exactly 32 devices with
numbers 0 through 31 in strictly increasing order, and afterwards every
call returns none without changing the cursor. -/
theorem claimC9 :
    (∀ fuel, 32 ≤ fuel → pciBusIterRun fuel 0 = List.range 32) ∧
    (pciBusIterRun 32 0).length = 32 ∧
    (pciBusIterRun 32 0).Pairwise (· < ·) ∧
    (∀ n, 32 ≤ n → pciBusIterNext n = (none, n)) := by
  have hrun : pciBusIterRun 32 0 = List.range 32 := by
    rw [pciBusIterRun_char 32 0 (by omega) (by omega), List.range_eq_range']
  refine ⟨?_, by rw [hrun]; decide, by rw [hrun]; exact List.pairwise_lt_range 32, ?_⟩
  · intro fuel hf
    rw [pciBusIterRun_char fuel 0 (by omega) (by omega), List.range_eq_range']
  · intro n hn
    simp [pciBusIterNext, Nat.not_lt.2 hn]

/-- Witness for C9 at concrete fuel 40 and cursor 35. -/
theorem claimC9_witness :
    pciBusIterRun 40 0 = List.range 32 ∧ pciBusIterNext 35 = (none, 35) :=
  ⟨claimC9.1 40 (by decide), claimC9.2.2.2 35 (by decide)⟩

/-- C10: the e1000d dispatcher saves the operation field a of a request
before each handler invocation and restores it whenever the handler
reports the would-block sentinel: a parked request carries its original
operation word (both when first parked by the socket closure and across
irq retries), every written-back response differs from the sentinel, and
if no pending request carries the sentinel as its operation word then
none does after a dispatch step either. -/
theorem claimC10 {σ σ2 : Type}
    (h : σ → Packet → σ × Packet) (w : Packet → Bool) (s : σ) (todo : List Packet) (p : Packet)
    (h2 : σ2 → Packet → σ2 × Packet) (w2 : Packet → Bool) (s2 : σ2) (todo2 : List Packet)
    (r : ReadRes) :
    ((h s p).2.a = sentinel →
      (e1000dSocketEvent h w s todo (.ok p)).todo = todo ++ [{ (h s p).2 with a := p.a }]) ∧
    ((∀ q, w2 q = true) →
      ((e1000dIrqRetry h2 w2 s2 todo2).todo).map Packet.a =
        ((attemptsE h2 s2 todo2).2.filter (fun q => q.2.a == sentinel)).map (fun q => q.1.a)) ∧
    (∀ q ∈ (e1000dIrqRetry h2 w2 s2 todo2).written, q.a ≠ sentinel) ∧
    (∀ q ∈ (e1000dSocketEvent h w s todo r).written, q.a ≠ sentinel) ∧
    ((∀ q ∈ todo2, q.a ≠ sentinel) →
      ∀ q ∈ (e1000dIrqRetry h2 w2 s2 todo2).todo, q.a ≠ sentinel) ∧
    (p.a ≠ sentinel → (∀ q ∈ todo, q.a ≠ sentinel) →
      ∀ q ∈ (e1000dSocketEvent h w s todo (.ok p)).todo, q.a ≠ sentinel) := by
  refine ⟨?_, ?_, e1000dIrqRetry_written_no_sentinel h2 w2 s2 todo2,
    e1000dSocketEvent_written_no_sentinel h w s todo r,
    e1000dIrqRetry_todo_no_sentinel h2 w2 s2 todo2,
    e1000dSocketEvent_todo_no_sentinel h w s todo p⟩
  · intro hb
    simp [e1000dSocketEvent, e1000dSocketBody, hb]
  · intro hw2
    rw [(e1000dIrqRetry_char h2 w2 hw2 s2 todo2).2.2.2.1, List.map_map]
    rfl

/-- Witness for C10 at a concrete always-parking handler: the parked
request keeps its original operation word. -/
theorem claimC10_witness :
    (e1000dSocketEvent (fun (_ : Unit) p => ((), { p with a := sentinel }))
      (fun _ => true) () [] (.ok ⟨2, 3, 0⟩)).todo = [⟨2, 3, 0⟩] ∧
    ((e1000dIrqRetry (fun (_ : Unit) p => ((), { p with a := sentinel }))
        (fun _ => true) () [⟨1, 0, 0⟩]).todo).map Packet.a =
      ((attemptsE (fun (_ : Unit) p => ((), { p with a := sentinel })) ()
        [⟨1, 0, 0⟩]).2.filter (fun q => q.2.a == sentinel)).map (fun q => q.1.a) ∧
    (⟨1, 0, 0⟩ : Packet).a ≠ sentinel :=
  ⟨(claimC10 (fun (_ : Unit) p => ((), { p with a := sentinel })) (fun _ => true) () []
      ⟨2, 3, 0⟩ (fun (_ : Unit) p => ((), { p with a := sentinel })) (fun _ => true) ()
      [⟨1, 0, 0⟩] .eof).1 rfl,
   (claimC10 (fun (_ : Unit) p => ((), { p with a := sentinel })) (fun _ => true) () []
      ⟨2, 3, 0⟩ (fun (_ : Unit) p => ((), { p with a := sentinel })) (fun _ => true) ()
      [⟨1, 0, 0⟩] .eof).2.1 (fun _ => rfl),
   (claimC10 (fun (_ : Unit) p => ((), { p with a := sentinel })) (fun _ => true) () []
      ⟨2, 3, 0⟩ (fun (_ : Unit) p => ((), { p with a := sentinel })) (fun _ => true) ()
      [⟨1, 0, 0⟩] .eof).2.2.2.2.1 (by decide) ⟨1, 0, 0⟩ (by decide)⟩
